import Mathlib

/-!
Verification development for the seo_hub natural-language-to-SQL pipeline
(`seo_hub/data/query_executor.py`, `query_planner.py`, `schema_manager.py`,
`vector_store.py`).

The Python code is shallowly embedded: pure string manipulation is translated
to executable Lean functions over `String` / `List Char`; the external
collaborators (the Gemini model, the sqlite driver, the filesystem, Python
`json.loads`) are passed in as explicit oracle parameters, so that theorems
quantifying over an oracle hold for every possible behaviour of that
collaborator; an uncaught Python exception is modelled as the `.error` branch
of an `Except` result.
-/

namespace SeoHub

/-! ## String helpers mirroring the Python primitives used by the code -/

/-- Python `s.lower()` restricted to the per-character case folding it
performs on ASCII SQL text. -/
def lowerStr (s : String) : String := ⟨s.data.map Char.toLower⟩

/-- Occurrence test: `pat` occurs as a contiguous run inside `l`
(Python `pat in s`). -/
def subOcc (pat : List Char) : List Char → Bool
  | [] => pat.isEmpty
  | c :: rest => pat.isPrefixOf (c :: rest) || subOcc pat rest

/-- Python `pat in s` on strings. -/
def hasTok (s pat : String) : Bool := subOcc pat.data s.data

/-- Scanning pass of Python `s.replace(pat, "")` for nonempty `pat`:
`skip` counts characters of a just-matched occurrence still to be discarded.
After a match at position `i` the scan resumes at `i + pat.length`, i.e.
occurrences are removed left to right without overlap, exactly as
`str.replace` does. -/
def stripGo (pat : List Char) : Nat → List Char → List Char
  | _, [] => []
  | Nat.succ k, _ :: rest => stripGo pat k rest
  | 0, c :: rest =>
    if pat.isPrefixOf (c :: rest) then stripGo pat (pat.length - 1) rest
    else c :: stripGo pat 0 rest

/-- Python `s.replace(pat, "")`. For the empty pattern Python returns `s`
unchanged when the replacement is empty. -/
def pyStrip (s pat : String) : String :=
  if pat.data.isEmpty then s else ⟨stripGo pat.data 0 s.data⟩

/-- Python `s.strip()` (whitespace trim on both ends). -/
def pyTrim (l : List Char) : List Char :=
  ((l.dropWhile Char.isWhitespace).reverse.dropWhile Char.isWhitespace).reverse

/-- Python `s.split(c)` for a one-character separator: splits at every
occurrence, keeping empty pieces. -/
def splitOnChar (c : Char) : List Char → List (List Char)
  | [] => [[]]
  | a :: rest =>
    let r := splitOnChar c rest
    if a = c then [] :: r
    else
      match r with
      | [] => [[a]]
      | g :: gs => (a :: g) :: gs

/-- Opening curly bracket character. -/
def lbrace : Char := Char.ofNat 123

/-- Closing curly bracket character. -/
def rbrace : Char := Char.ofNat 125

/-- Opening curly bracket as a one-character string. -/
def lbraceStr : String := ⟨[lbrace]⟩

/-- Closing curly bracket as a one-character string. -/
def rbraceStr : String := ⟨[rbrace]⟩

/-- Apostrophe character (used inside string literals of the source). -/
def apos : Char := Char.ofNat 39

/-- Python `s.find(c)` for a character known to occur: index of the first
occurrence (callers guard occurrence, so the fallback value for the absent
case is irrelevant). -/
def idxOf (c : Char) : List Char → Nat
  | [] => 0
  | a :: rest => if a = c then 0 else idxOf c rest + 1

/-- Python `s.rfind(c)` for a character known to occur: index of the last
occurrence. -/
def lastIdxOf (c : Char) (l : List Char) : Nat :=
  l.length - 1 - idxOf c l.reverse

/-- Python `s.startswith(pre)`. -/
def strStartsWith (s pre : String) : Bool := pre.data.isPrefixOf s.data

/-! ## Query executor: data model and routing (`query_executor.py`) -/

/-- The four logical stores whose dotted name tokens the routing step of
`QueryExecutor._execute_sql` scans for, in its source order. -/
inductive StoreId
  | rankings
  | urls_analysis
  | url_tracker
  | aimodels
  deriving DecidableEq

/-- Token scanned for in the lowered SQL text to detect each store: the
database name followed by a dot (`"rankings." in query_lower`, etc.). -/
def storeToken : StoreId → String
  | .rankings => "rankings."
  | .urls_analysis => "urls_analysis."
  | .url_tracker => "url_tracker."
  | .aimodels => "aimodels."

/-- The stores in the order `_execute_sql` tests them. -/
def allStores : List StoreId := [.rankings, .urls_analysis, .url_tracker, .aimodels]

/-- State of a `QueryExecutor` instance relevant to routing. `__init__`
assigns `rankings_db`, `urls_db` and `aimodels_db` from its arguments; no
`url_tracker_db` attribute is ever assigned anywhere in the class, so that
attribute is modelled as an `Option` which the constructor leaves at `none`
(reading it then raises Python `AttributeError`). -/
structure QueryExecutor where
  rankings_db : String
  urls_db : String
  aimodels_db : String
  url_tracker_db : Option String
  deriving DecidableEq

/-- `QueryExecutor.__init__(rankings_db, urls_db, aimodels_db)`. -/
def initQueryExecutor (rankings_db urls_db aimodels_db : String) : QueryExecutor :=
  ⟨rankings_db, urls_db, aimodels_db, none⟩

/-- Attribute read performed by the routing branch for each store. -/
def dbAttr (ex : QueryExecutor) : StoreId → Option String
  | .rankings => some ex.rankings_db
  | .urls_analysis => some ex.urls_db
  | .url_tracker => ex.url_tracker_db
  | .aimodels => some ex.aimodels_db

/-- Uncaught Python exceptions of the routing step of `_execute_sql`. -/
inductive RouteErr
  | valueError
  | attributeError
  deriving DecidableEq

/-- Routing step of `QueryExecutor._execute_sql` (lines 37-57): lower the
query, pick the database by the first matching store token in source order,
and remove that token from the original (non-lowered) query text with
`str.replace`. Returns the matched store, the chosen database path and the
statement text that will be executed; `.error .valueError` is the explicit
`raise ValueError` of the final `else`, `.error .attributeError` the read of
the never-assigned `self.url_tracker_db`. -/
def routeSql (ex : QueryExecutor) (query : String) :
    Except RouteErr (StoreId × String × String) :=
  let query_lower := lowerStr query
  if hasTok query_lower "rankings." then
    .ok (.rankings, ex.rankings_db, pyStrip query "rankings.")
  else if hasTok query_lower "urls_analysis." then
    .ok (.urls_analysis, ex.urls_db, pyStrip query "urls_analysis.")
  else if hasTok query_lower "url_tracker." then
    match ex.url_tracker_db with
    | some db => .ok (.url_tracker, db, pyStrip query "url_tracker.")
    | none => .error .attributeError
  else if hasTok query_lower "aimodels." then
    .ok (.aimodels, ex.aimodels_db, pyStrip query "aimodels.")
  else .error .valueError

/-- Tabular result (`pandas.DataFrame`) as column names plus rows. -/
structure DataFrame where
  columns : List String
  rows : List (List String)
  deriving DecidableEq

/-- `pd.DataFrame()`: the empty frame returned when a store query raises. -/
def emptyDF : DataFrame := ⟨[], []⟩

/-- `df.empty`: true when either axis has length zero. -/
def DataFrame.isEmptyDF (df : DataFrame) : Bool :=
  df.rows.isEmpty || df.columns.isEmpty

/-- `QueryExecutor._execute_sql` in full: route, then run the statement on
the chosen connection. `runStore db sql` models opening the sqlite
connection and `pd.read_sql_query`: `.ok` rows, or `.error` for any driver
exception. Driver exceptions are caught by the `try`/`except` (which only
displays `st.error` diagnostics) and become an empty frame; the routing
exceptions are raised before the `try`, hence before any connection is
opened, and propagate. -/
def executeSql (ex : QueryExecutor)
    (runStore : String → String → Except String DataFrame)
    (query : String) : Except RouteErr DataFrame :=
  match routeSql ex query with
  | .error e => .error e
  | .ok (_, db, q) =>
    match runStore db q with
    | .ok df => .ok df
    | .error _ => .ok emptyDF

/-! ## Query planner (`query_planner.py`) -/

/-- List `valid_prefixes` of `QueryPlanner._validate_database_prefixes`,
in source order. -/
def validTableNames : List String :=
  ["rankings.keywords", "rankings.rankings", "urls_analysis.urls",
   "urls_analysis.content_analysis", "url_tracker.url_tracking",
   "url_tracker.sitemap_tracking", "aimodels.keyword_rankings"]

/-- `QueryPlanner._validate_database_prefixes`: `true` iff at least one
store-qualified table name occurs, case-insensitively, in the query; the
Python method raises `ValueError` in the `false` case and returns `None`
otherwise. -/
def validateDatabasePrefixes (query : String) : Bool :=
  validTableNames.any (fun p => hasTok (lowerStr query) (lowerStr p))

/-- The four keys of the plan dictionary that the rest of the pipeline
reads (`_parse_gemini_response` guarantees all four are present). -/
structure Plan where
  question_type : String
  sql_query : String
  required_context : String
  visualization : String
  deriving DecidableEq

/-- `default_plan` initialised at the top of `_parse_gemini_response`. -/
def defaultPlan : Plan :=
  { question_type := "", sql_query := "", required_context := "", visualization := "table" }

/-- Assignment of one key of the plan dictionary. Keys other than the four
known ones are retained by the real dict merge but never read downstream,
so they are dropped here. -/
def setPlanField (p : Plan) (kv : String × String) : Plan :=
  if kv.1 = "question_type" then { p with question_type := kv.2 }
  else if kv.1 = "sql_query" then { p with sql_query := kv.2 }
  else if kv.1 = "required_context" then { p with required_context := kv.2 }
  else if kv.1 = "visualization" then { p with visualization := kv.2 }
  else p

/-- Python dict merge of `default_plan` with the parsed JSON object
(parsed keys win; within the object, later duplicates win). -/
def mergePlan (kvs : List (String × String)) : Plan :=
  kvs.foldl setPlanField defaultPlan

/-- The slice `response[response.find(lb) : response.rfind(rb) + 1]` that
`_parse_gemini_response` feeds to `json.loads` (only reached when both
braces occur in the response). -/
def sliceBraces (response : String) : String :=
  let i := idxOf lbrace response.data
  let j := lastIdxOf rbrace response.data
  ⟨(response.data.drop i).take (j + 1 - i)⟩

/-- Normalisation of a section header line by the line-by-line fallback:
`line[:-1].lower().replace(" ", "_")`. -/
def headerKey (l : List Char) : List Char :=
  (l.dropLast.map Char.toLower).map (fun c => if c = ' ' then '_' else c)

/-- Python `line.endswith(":")`. -/
def endsWithColon (l : List Char) : Bool := l.getLast? == some ':'

/-- `sections[k] = v`: dict assignment; an existing key keeps its position. -/
def assocSet (k : List Char) (v : List (List Char)) :
    List (List Char × List (List Char)) → List (List Char × List (List Char))
  | [] => [(k, v)]
  | (k2, v2) :: rest =>
    if k2 = k then (k, v) :: rest else (k2, v2) :: assocSet k v rest

/-- `sections[k].append(x)`. The key always exists when this runs, because
`current_section` is only ever set by a header line that first assigns
`sections[k] = []`; the `[]` branch is therefore unreachable. -/
def assocPush (k : List Char) (x : List Char) :
    List (List Char × List (List Char)) → List (List Char × List (List Char))
  | [] => [(k, [x])]
  | (k2, v2) :: rest =>
    if k2 = k then (k2, v2 ++ [x]) :: rest else (k2, v2) :: assocPush k x rest

/-- The `for line in response.split("\n")` loop of the fallback parser:
state is `current_section` and the insertion-ordered `sections` dict. -/
def lineFold : Option (List Char) → List (List Char × List (List Char)) →
    List (List Char) → Option (List Char) × List (List Char × List (List Char))
  | cur, secs, [] => (cur, secs)
  | cur, secs, rawLine :: rest =>
    let line := pyTrim rawLine
    if line.isEmpty then lineFold cur secs rest
    else if endsWithColon line then
      let k := headerKey line
      lineFold (some k) (assocSet k [] secs) rest
    else
      match cur with
      | some k => lineFold cur (assocPush k line secs) rest
      | none => lineFold cur secs rest

/-- Python `" ".join(parts)`. -/
def joinSpace (parts : List (List Char)) : List Char :=
  List.intercalate [' '] parts

/-- The line-by-line fallback branch of `_parse_gemini_response`: collect
`key: value` sections, then copy each section whose key is one of the plan
keys into a copy of `default_plan`, joining its lines with spaces. -/
def linewiseParse (response : String) : Plan :=
  let secs := (lineFold none [] (splitOnChar '\n' response.data)).2
  secs.foldl (fun p kv => setPlanField p (⟨kv.1⟩, ⟨joinSpace kv.2⟩)) defaultPlan

/-- `QueryPlanner._parse_gemini_response`. `jsonLoads` models Python
`json.loads` restricted to what the merge step accepts: `some kvs` when the
slice parses as a JSON object (string values read by the pipeline), `none`
when `json.loads` raises or yields a non-dict (which would make the
`**parsed` splat raise); either raise lands in the surrounding `except`,
which returns `default_plan`. Note the control flow of the source: the
line-by-line fallback is inside the `try` but below an unconditional
`return`, so it only runs when the response lacks an opening or a closing
brace; a `json.loads` failure jumps straight to the `except`. -/
def parseGeminiResponse (jsonLoads : String → Option (List (String × String)))
    (response : String) : Plan :=
  if hasTok response lbraceStr && hasTok response rbraceStr then
    match jsonLoads (sliceBraces response) with
    | some kvs => mergePlan kvs
    | none => defaultPlan
  else
    linewiseParse response

/-- `QueryPlanner.create_execution_plan` with the Gemini call abstracted:
the schema text, the guidelines and the retrieved exemplars only shape the
prompt handed to the model, so the model is represented by the reply text
`response` it produces for this request. The reply is parsed and the plan
validated; the `ValueError` raised by `_validate_database_prefixes`
propagates out of the method (`.error ()`). -/
def createExecutionPlan (jsonLoads : String → Option (List (String × String)))
    (response : String) : Except Unit Plan :=
  let plan := parseGeminiResponse jsonLoads response
  if validateDatabasePrefixes plan.sql_query then .ok plan else .error ()

/-! ## Visualization, explanation and the public `execute` call -/

/-- Plotly figures built by `_create_visualization`, reduced to the data
actually passed: x column, y column, optional colour column. -/
inductive Chart
  | line (x y : String) (color : Option String)
  | bar (x y : String) (color : Option String)
  | scatter (x y : String) (color : Option String)
  deriving DecidableEq

/-- `QueryExecutor._create_visualization`. Empty data short-circuits to
`None` before the `try`. Otherwise the first of `line`/`bar`/`scatter`
found in the lowered hint selects a figure built from the first two
columns, with the third column as colour when present; on a frame with
fewer than two columns the `data.columns[1]` subscript raises `IndexError`,
which the `except` converts to `None`; any other hint falls through to
`None`. Plotly figure construction itself is abstracted as succeeding. -/
def createVisualization (df : DataFrame) (viz_type : String) : Option Chart :=
  if df.isEmptyDF then none
  else if hasTok (lowerStr viz_type) "line" then
    match df.columns with
    | x :: y :: rest => some (.line x y rest.head?)
    | _ => none
  else if hasTok (lowerStr viz_type) "bar" then
    match df.columns with
    | x :: y :: rest => some (.bar x y rest.head?)
    | _ => none
  else if hasTok (lowerStr viz_type) "scatter" then
    match df.columns with
    | x :: y :: rest => some (.scatter x y rest.head?)
    | _ => none
  else none

/-- Prompt template of `QueryExecutor._generate_explanation`. `describe`
and `sample` model `data.describe().to_string()` and
`data.head().to_string()`; both ternaries substitute the literal
`"No data available"` on an empty frame. `plan.get("required_context", ...)`
always finds the key (every parse result carries all four keys), so it is
read directly. The indentation whitespace of the Python f-string is kept
only approximately. -/
def explanationPrompt (describe sample : DataFrame → String) (question : String)
    (plan : Plan) (df : DataFrame) : String :=
  "\n        Analyze this SEO data and provide a clear explanation.\n        \n        Original Question: "
    ++ question
    ++ "\n        \n        Data Summary:\n        "
    ++ (if df.isEmptyDF then "No data available" else describe df)
    ++ "\n        \n        Data Sample:\n        "
    ++ (if df.isEmptyDF then "No data available" else sample df)
    ++ "\n        \n        Required Context:\n        "
    ++ plan.required_context
    ++ "\n        \n        Explain the results in a clear, actionable way. Include:\n        1. Direct answer to the question\n        2. Key insights from the data\n        3. Important trends or patterns\n        4. Action items or recommendations\n        \n        Keep the explanation concise but informative.\n        "

/-- `QueryExecutor._generate_explanation`: one Gemini chat call on the
prompt, returning the reply text verbatim. `explainLLM` is the external
model; `.error` models the API call raising (there is no `try`/`except`
around it). -/
def generateExplanation (explainLLM : String → Except String String)
    (describe sample : DataFrame → String) (question : String) (plan : Plan)
    (df : DataFrame) : Except String String :=
  explainLLM (explanationPrompt describe sample question plan df)

/-- Uncaught Python exceptions that can escape `QueryExecutor.execute`. -/
inductive ExecErr
  | planValidation
  | routing (e : RouteErr)
  | explanation (msg : String)
  deriving DecidableEq

/-- `QueryExecutor.execute`: plan, run the SQL, shape a chart, explain.
The method body has no `try`/`except`, so an exception raised by plan
validation, by routing, or by the explanation-phase model call propagates
to the caller (`.error`); otherwise the `(explanation, data, viz)` triple
is returned. `planResponse` abstracts the plan-generation Gemini call as
the reply text it produces for the question. -/
def executeQE (ex : QueryExecutor)
    (jsonLoads : String → Option (List (String × String)))
    (planResponse : String → String)
    (runStore : String → String → Except String DataFrame)
    (explainLLM : String → Except String String)
    (describe sample : DataFrame → String)
    (user_question : String) : Except ExecErr (String × DataFrame × Option Chart) :=
  match createExecutionPlan jsonLoads (planResponse user_question) with
  | .error _ => .error .planValidation
  | .ok plan =>
    match executeSql ex runStore plan.sql_query with
    | .error e => .error (.routing e)
    | .ok data =>
      let viz := createVisualization data plan.visualization
      match generateExplanation explainLLM describe sample user_question plan data with
      | .error m => .error (.explanation m)
      | .ok explanation => .ok (explanation, data, viz)

/-! ## Schema manager (`schema_manager.py`) -/

/-- One row of `PRAGMA table_info`: the fields `get_schema` reads. -/
structure ColumnInfo where
  name : String
  ctype : String
  notnull : Bool
  dflt : Option String
  pk : Bool
  deriving DecidableEq

/-- One row of `PRAGMA foreign_key_list`: referenced table (`fk[2]`),
referencing column (`fk[3]`), referenced column (`fk[4]`). -/
structure ForeignKey where
  table : String
  fromCol : String
  toCol : String
  deriving DecidableEq

/-- One table of `sqlite_master` with its introspected columns and keys. -/
structure TableInfo where
  name : String
  cols : List ColumnInfo
  fks : List ForeignKey
  deriving DecidableEq

/-- State of a `SchemaManager`: `self.databases` maps the fixed keys
`rankings`, `urls_analysis`, `aimodels` to the three constructor paths
(there is no `url_tracker` entry). -/
structure SchemaManager where
  rankings_db : String
  urls_db : String
  aimodels_db : String
  deriving DecidableEq

/-- Purpose line of the `purposes` dict for `rankings`. -/
def purposeRankings : String :=
  "Contains search engine ranking data. Use for position tracking and ranking analysis."

/-- Purpose line of the `purposes` dict for `urls_analysis`. -/
def purposeUrls : String :=
  "Contains analyzed content and metadata. Use for content insights and analysis."

/-- Purpose line of the `purposes` dict for `aimodels`. -/
def purposeAimodels : String :=
  "Contains LLM response data. Use for analyzing AI model responses."

/-- Column line `f"  - {name} ({type_name}) {" ".join(constraints)}"`. -/
def columnLine (c : ColumnInfo) : String :=
  let constraints :=
    (if c.pk then ["PRIMARY KEY"] else []) ++
    (if c.notnull then ["NOT NULL"] else []) ++
    (match c.dflt with
     | some v => ["DEFAULT " ++ v]
     | none => [])
  "  - " ++ c.name ++ " (" ++ c.ctype ++ ") " ++ String.intercalate " " constraints

/-- Foreign-key line `f"  - {fk[3]} references {fk[2]}({fk[4]})"`. -/
def fkLine (fk : ForeignKey) : String :=
  "  - " ++ fk.fromCol ++ " references " ++ fk.table ++ "(" ++ fk.toCol ++ ")"

/-- Lines appended for one table by the inner loop of `get_schema`; tables
whose name starts with `sqlite_` are skipped. -/
def tableLines (t : TableInfo) : List String :=
  if strStartsWith t.name "sqlite_" then []
  else
    ["\nTable: " ++ t.name] ++ t.cols.map columnLine ++
      (if t.fks.isEmpty then [] else ["\n  Foreign Keys:"] ++ t.fks.map fkLine)

/-- Per-database block of `get_schema`: the three header lines are appended
before the `try`; the `try` then appends the introspected tables, and the
`except` instead appends the single inline error note. `res` is the
outcome of connecting to and introspecting this database. -/
def dbSection (name purpose : String) (res : Except String (List TableInfo)) :
    List String :=
  ["\n\nDatabase: " ++ name ++ ".db", "Purpose: " ++ purpose,
   String.mk (List.replicate 50 '-')] ++
    (match res with
     | .ok tables => (tables.map tableLines).flatten
     | .error e => ["Error reading schema: " ++ e])

/-- `SchemaManager.get_schema` as the list of lines it accumulates in
`schema_info`. `introspect` models one `sqlite3.connect` plus the
`sqlite_master` query and pragmas: `.error` is any exception the
per-database `except Exception` catches. `now` is the formatted timestamp
of the header. The loop over `self.databases` visits the three fixed
entries in insertion order; a failure in one iteration is confined to that
iteration, so the call as a whole always returns. -/
def getSchemaLines (sm : SchemaManager)
    (introspect : String → Except String (List TableInfo)) (now : String) :
    List String :=
  ["Database Schema Details (Generated on " ++ now ++ ")",
   "\nEach database serves a specific purpose. Here" ++ String.mk [apos] ++
     "s what you" ++ String.mk [apos] ++ "ll find in each:"]
    ++ dbSection "rankings" purposeRankings (introspect sm.rankings_db)
    ++ dbSection "urls_analysis" purposeUrls (introspect sm.urls_db)
    ++ dbSection "aimodels" purposeAimodels (introspect sm.aimodels_db)

/-- `SchemaManager.get_schema`: the accumulated lines joined with
newlines. -/
def getSchema (sm : SchemaManager)
    (introspect : String → Except String (List TableInfo)) (now : String) :
    String :=
  String.intercalate "\n" (getSchemaLines sm introspect now)

/-! ## Vector store bulk load (`vector_store.py`) -/

/-- Contents of the three ChromaDB collections as append-ordered lists of
the raw entries handed to `add_sql_pattern` / `add_trend` /
`add_competitor_insight` (ids, being derived from list length, are left
implicit). A pattern entry is `(question, sql, metadata)`; trend and
competitor entries are `(content, source-or-competitor, date, metadata)`. -/
structure KBState where
  patterns : List (String × String × Option String)
  trends : List (String × String × String × Option String)
  competitors : List (String × String × String × Option String)
  deriving DecidableEq

/-- `os.path.join(dir, rel)` for the relative paths used here. -/
def joinPath (dir rel : String) : String := dir ++ "/" ++ rel

/-- One `if os.path.exists(file): with open(file) ... json.load ... add*`
block of `load_initial_data`, for the patterns collection. `fs` models the
filesystem (`none` = absent, skipped silently); `decodeP` models
`json.load` together with the per-item subscripts (`pattern["question"]`,
`pattern["sql"]`, `pattern.get("metadata")`): `.error` is an exception
raised there — most relevantly `json.load` on a malformed file, which
raises before any item is added. There is no `try`/`except` anywhere in
the method, so the exception escapes at once: the returned pair is the
collection state reached so far together with the escaped error. -/
def loadPatternsStep (fs : String → Option String)
    (decodeP : String → Except String (List (String × String × Option String)))
    (dir : String) (st : KBState) : KBState × Option String :=
  match fs (joinPath dir "patterns/sql_patterns.json") with
  | none => (st, none)
  | some content =>
    match decodeP content with
    | .error e => (st, some e)
    | .ok items => ({ st with patterns := st.patterns ++ items }, none)

/-- The trends block of `load_initial_data`, analogous to the patterns
block. -/
def loadTrendsStep (fs : String → Option String)
    (decodeT : String → Except String (List (String × String × String × Option String)))
    (dir : String) (st : KBState) : KBState × Option String :=
  match fs (joinPath dir "trends/trends.json") with
  | none => (st, none)
  | some content =>
    match decodeT content with
    | .error e => (st, some e)
    | .ok items => ({ st with trends := st.trends ++ items }, none)

/-- The competitor-insights block of `load_initial_data`. -/
def loadCompetitorsStep (fs : String → Option String)
    (decodeC : String → Except String (List (String × String × String × Option String)))
    (dir : String) (st : KBState) : KBState × Option String :=
  match fs (joinPath dir "competitors/insights.json") with
  | none => (st, none)
  | some content =>
    match decodeC content with
    | .error e => (st, some e)
    | .ok items => ({ st with competitors := st.competitors ++ items }, none)

/-- One pass over the three collection blocks in source order; an escaped
exception aborts the remaining blocks. -/
def loadRound (fs : String → Option String)
    (decodeP : String → Except String (List (String × String × Option String)))
    (decodeT decodeC : String → Except String (List (String × String × String × Option String)))
    (dir : String) (st : KBState) : KBState × Option String :=
  match loadPatternsStep fs decodeP dir st with
  | (st1, some e) => (st1, some e)
  | (st1, none) =>
    match loadTrendsStep fs decodeT dir st1 with
    | (st2, some e) => (st2, some e)
    | (st2, none) => loadCompetitorsStep fs decodeC dir st2

/-- `VectorStore.load_initial_data`. After the three blocks, the source
contains a stray duplicated copy of all three blocks (lines 119-156)
indented inside the `if os.path.exists(competitors_file)` body, below its
`with` statement: when the competitors file exists (and nothing raised
earlier), every collection is loaded a second time. -/
def loadInitialData (fs : String → Option String)
    (decodeP : String → Except String (List (String × String × Option String)))
    (decodeT decodeC : String → Except String (List (String × String × String × Option String)))
    (dir : String) (st : KBState) : KBState × Option String :=
  match loadRound fs decodeP decodeT decodeC dir st with
  | (st3, some e) => (st3, some e)
  | (st3, none) =>
    if (fs (joinPath dir "competitors/insights.json")).isSome then
      loadRound fs decodeP decodeT decodeC dir st3
    else (st3, none)

/-! ## General lemmas about the string helpers -/

/-- A list starting with `p ++ q` starts with `p`. -/
theorem isPrefixOf_of_append (p q l : List Char) (h : (p ++ q).isPrefixOf l = true) :
    p.isPrefixOf l = true := by
  rw [List.isPrefixOf_iff_prefix] at h ⊢
  exact (List.prefix_append p q).trans h

/-- A list starts with itself followed by anything. -/
theorem isPrefixOf_self_append (p y : List Char) : p.isPrefixOf (p ++ y) = true := by
  rw [List.isPrefixOf_iff_prefix]
  exact List.prefix_append p y

/-- An occurrence of `p ++ q` contains an occurrence of `p`. -/
theorem subOcc_of_append (p q l : List Char) (h : subOcc (p ++ q) l = true) :
    subOcc p l = true := by
  induction l with
  | nil =>
    simp only [subOcc, List.isEmpty_eq_true, List.append_eq_nil] at h ⊢
    exact h.1
  | cons c rest ih =>
    simp only [subOcc, Bool.or_eq_true] at h ⊢
    cases h with
    | inl h => exact Or.inl (isPrefixOf_of_append p q (c :: rest) h)
    | inr h => exact Or.inr (ih h)

/-- `p` occurs in any list of the shape `x ++ p ++ y`. -/
theorem subOcc_sandwich (p x y : List Char) : subOcc p (x ++ p ++ y) = true := by
  induction x with
  | nil =>
    cases p with
    | nil => cases y <;> simp [subOcc, List.isPrefixOf]
    | cons a as =>
      simp only [List.nil_append, List.cons_append, subOcc, Bool.or_eq_true]
      exact Or.inl (isPrefixOf_self_append (a :: as) y)
  | cons a x ih =>
    simp only [List.cons_append, subOcc, Bool.or_eq_true]
    exact Or.inr ih

/-- String version of `subOcc_sandwich`. -/
theorem hasTok_append_mid (a m b : String) : hasTok (a ++ m ++ b) m = true := by
  unfold hasTok
  rw [String.data_append, String.data_append]
  exact subOcc_sandwich m.data a.data b.data

/-! ## Claims about the routing step (C1, C2, C7, C10) -/

/-- The tokens of every store other than `s` are absent (case-insensitively)
from `query`. -/
def otherTokensAbsent (query : String) (s : StoreId) : Bool :=
  allStores.all (fun t => t == s || !hasTok (lowerStr query) (storeToken t))

/-- Executor instance used by the concrete counterexamples and witnesses,
as produced by `QueryExecutor.__init__`. -/
def cexExecutor : QueryExecutor := initQueryExecutor "rankings.db" "urls.db" "aimodels.db"

/-- C1 (counterexample). The claimed routing isolation fails: a statement
mentioning both `rankings.keywords` and `aimodels.keyword_rankings` is
routed to the rankings store, and the statement actually sent to that
store's connection still contains the `aimodels.` token of another store.
-/
theorem c1_isolation_counterexample :
    routeSql cexExecutor "SELECT * FROM rankings.keywords JOIN aimodels.keyword_rankings" =
      .ok (.rankings, "rankings.db", "SELECT * FROM keywords JOIN aimodels.keyword_rankings") ∧
    hasTok (lowerStr "SELECT * FROM keywords JOIN aimodels.keyword_rankings")
      (storeToken .aimodels) = true :=
  ⟨rfl, by decide⟩

/-- C1 (amended). Each statement is executed against exactly one store: when
the lowered SQL contains store `s`'s token, no other store's token, and the
attribute holding `s`'s database path is set, routing sends the statement to
exactly `s`'s database with `s`'s token textually removed. (Tokens of other
stores, when present, are neither checked nor removed — that is the
counterexample — so isolation holds only under the stated hypothesis.) -/
theorem c1_routing_to_single_store (ex : QueryExecutor) (q : String) (s : StoreId)
    (db : String) (hs : hasTok (lowerStr q) (storeToken s) = true)
    (hothers : otherTokensAbsent q s = true) (hdb : dbAttr ex s = some db) :
    routeSql ex q = .ok (s, db, pyStrip q (storeToken s)) := by
  cases s <;>
    simp only [otherTokensAbsent, allStores, List.all_cons, List.all_nil, Bool.and_eq_true,
      Bool.or_eq_true, beq_iff_eq, Bool.not_eq_true', and_true] at hothers <;>
    simp_all [routeSql, storeToken, dbAttr]

/-- C1 (witness for the amended theorem at a concrete input). -/
theorem c1_routing_witness :
    routeSql cexExecutor "SELECT * FROM rankings.keywords" =
      .ok (.rankings, "rankings.db",
        pyStrip "SELECT * FROM rankings.keywords" (storeToken .rankings)) :=
  c1_routing_to_single_store cexExecutor "SELECT * FROM rankings.keywords" .rankings
    "rankings.db" (by decide) (by decide) (by decide)

/-- C2 (counterexample). With tokens of two distinct stores present
(`rankings.` and `urls_analysis.`), routing does not fail: it silently
returns the rankings store, contradicting the claimed
`StoreRoutingError` on ambiguity. -/
theorem c2_ambiguity_counterexample :
    hasTok (lowerStr "SELECT * FROM rankings.rankings JOIN urls_analysis.urls")
      (storeToken .rankings) = true ∧
    hasTok (lowerStr "SELECT * FROM rankings.rankings JOIN urls_analysis.urls")
      (storeToken .urls_analysis) = true ∧
    routeSql cexExecutor "SELECT * FROM rankings.rankings JOIN urls_analysis.urls" =
      .ok (.rankings, "rankings.db", "SELECT * FROM rankings JOIN urls_analysis.urls") :=
  ⟨by decide, by decide, rfl⟩

/-- The store tokens detected (case-insensitively) in `query`, listed in
the order the routing chain tests them. -/
def detectedStores (query : String) : List StoreId :=
  allStores.filter (fun s => hasTok (lowerStr query) (storeToken s))

/-- C2 (amended). Zero detected store tokens do raise (`ValueError`, the
code's stand-in for the spec's `StoreRoutingError`). But multiplicity is
never detected or reported: whenever at least one token is present,
routing commits to the FIRST detected store in the fixed test order
rankings, urls_analysis, url_tracker, aimodels — the conclusion depends
only on the head of the detection list, never on the other detected
stores. It then routes to that store when its database attribute is set,
and raises `AttributeError` (the unset-attribute failure, not a
routing-ambiguity error) when the first detected store is `url_tracker`
and its attribute is unset. -/
theorem c2_first_match_commit (ex : QueryExecutor) (q : String) :
    ((detectedStores q).head? = none → routeSql ex q = .error .valueError) ∧
    (∀ s db, (detectedStores q).head? = some s → dbAttr ex s = some db →
      routeSql ex q = .ok (s, db, pyStrip q (storeToken s))) ∧
    (∀ s, (detectedStores q).head? = some s → dbAttr ex s = none →
      routeSql ex q = .error .attributeError) := by
  by_cases hr : hasTok (lowerStr q) "rankings." = true <;>
    by_cases hu : hasTok (lowerStr q) "urls_analysis." = true <;>
      by_cases ht : hasTok (lowerStr q) "url_tracker." = true <;>
        by_cases ha : hasTok (lowerStr q) "aimodels." = true <;>
          refine ⟨fun hn => ?_, fun s db hs hdb => ?_, fun s hs hdb => ?_⟩ <;>
            (try cases s) <;>
              simp_all [detectedStores, allStores, storeToken, routeSql, dbAttr]

/-- C2 (witness): the zero-token branch at `"SELECT * FROM keywords"`; the
first-match commit at a statement naming two stores; and the
`AttributeError` outcome at a two-store statement whose first detected
token is `url_tracker.`. -/
theorem c2_witness :
    routeSql cexExecutor "SELECT * FROM keywords" = .error .valueError ∧
    routeSql cexExecutor "SELECT * FROM rankings.keywords JOIN aimodels.keyword_rankings ON x" =
      .ok (.rankings, "rankings.db",
        pyStrip "SELECT * FROM rankings.keywords JOIN aimodels.keyword_rankings ON x"
          (storeToken .rankings)) ∧
    routeSql cexExecutor "SELECT * FROM url_tracker.url_tracking JOIN aimodels.keyword_rankings" =
      .error .attributeError :=
  ⟨(c2_first_match_commit cexExecutor "SELECT * FROM keywords").1 (by decide),
   (c2_first_match_commit cexExecutor
      "SELECT * FROM rankings.keywords JOIN aimodels.keyword_rankings ON x").2.1
     .rankings "rankings.db" (by decide) (by decide),
   (c2_first_match_commit cexExecutor
      "SELECT * FROM url_tracker.url_tracking JOIN aimodels.keyword_rankings").2.2
     .url_tracker (by decide) (by decide)⟩

/-- C7 (counterexample). Stripping does not use the case-insensitive
matching of detection: `Rankings.keywords` is detected (case-insensitively)
and routed to the rankings store, but `str.replace("rankings.", "")` removes
nothing, so the executed statement still contains the matched token in
another letter case. -/
theorem c7_case_counterexample :
    routeSql cexExecutor "SELECT * FROM Rankings.keywords" =
      .ok (.rankings, "rankings.db", "SELECT * FROM Rankings.keywords") ∧
    hasTok (lowerStr "SELECT * FROM Rankings.keywords") (storeToken .rankings) = true :=
  ⟨rfl, by decide⟩

/-- C7 (amended). The statement executed against the matched store is the
input with the store's token removed by a case-SENSITIVE textual
replacement of the exact lowercase token (Python `str.replace`), not under
the case-insensitive matching used for detection; detection itself is
case-insensitive. -/
theorem c7_strip_is_exact_removal (ex : QueryExecutor) (q : String) (s : StoreId)
    (db out : String) (h : routeSql ex q = .ok (s, db, out)) :
    out = pyStrip q (storeToken s) ∧ hasTok (lowerStr q) (storeToken s) = true := by
  simp only [routeSql] at h
  by_cases hr : hasTok (lowerStr q) "rankings." = true
  · rw [if_pos hr] at h
    simp only [Except.ok.injEq, Prod.mk.injEq] at h
    obtain ⟨h1, _, h3⟩ := h
    subst h1
    exact ⟨h3.symm, by simpa [storeToken] using hr⟩
  · rw [if_neg hr] at h
    by_cases hu : hasTok (lowerStr q) "urls_analysis." = true
    · rw [if_pos hu] at h
      simp only [Except.ok.injEq, Prod.mk.injEq] at h
      obtain ⟨h1, _, h3⟩ := h
      subst h1
      exact ⟨h3.symm, by simpa [storeToken] using hu⟩
    · rw [if_neg hu] at h
      by_cases ht : hasTok (lowerStr q) "url_tracker." = true
      · rw [if_pos ht] at h
        cases hdb : ex.url_tracker_db with
        | some v =>
          rw [hdb] at h
          simp only [Except.ok.injEq, Prod.mk.injEq] at h
          obtain ⟨h1, _, h3⟩ := h
          subst h1
          exact ⟨h3.symm, by simpa [storeToken] using ht⟩
        | none =>
          rw [hdb] at h
          simp at h
      · rw [if_neg ht] at h
        by_cases ha : hasTok (lowerStr q) "aimodels." = true
        · rw [if_pos ha] at h
          simp only [Except.ok.injEq, Prod.mk.injEq] at h
          obtain ⟨h1, _, h3⟩ := h
          subst h1
          exact ⟨h3.symm, by simpa [storeToken] using ha⟩
        · rw [if_neg ha] at h
          simp at h

/-- C7 (witness for the amended theorem at a concrete routed statement). -/
theorem c7_strip_witness :
    pyStrip "SELECT * FROM rankings.keywords JOIN rankings.rankings" (storeToken .rankings) =
      pyStrip "SELECT * FROM rankings.keywords JOIN rankings.rankings" (storeToken .rankings) ∧
    hasTok (lowerStr "SELECT * FROM rankings.keywords JOIN rankings.rankings")
      (storeToken .rankings) = true :=
  c7_strip_is_exact_removal cexExecutor
    "SELECT * FROM rankings.keywords JOIN rankings.rankings" .rankings "rankings.db"
    (pyStrip "SELECT * FROM rankings.keywords JOIN rankings.rankings" (storeToken .rankings))
    rfl

/-- C10 (confirmed). A statement whose first detected token is
`url_tracker.` (none of the two earlier-tested tokens present) and which
names the legal table `url_tracker.url_tracking` passes the planner's
validation, yet the executor's routing reads the `url_tracker_db`
attribute that `__init__` never assigns: the request fails with
`AttributeError` before any store connection is opened (`runStore` is
universally quantified and never consulted), instead of reaching the
degraded empty-result path. -/
theorem c10_url_tracker_attribute_error (r u a : String)
    (runStore : String → String → Except String DataFrame) (q : String)
    (h1 : hasTok (lowerStr q) (storeToken .rankings) = false)
    (h2 : hasTok (lowerStr q) (storeToken .urls_analysis) = false)
    (h3 : hasTok (lowerStr q) "url_tracker.url_tracking" = true) :
    validateDatabasePrefixes q = true ∧
    executeSql (initQueryExecutor r u a) runStore q = .error .attributeError := by
  have htok : hasTok (lowerStr q) (storeToken .url_tracker) = true := by
    have : ("url_tracker." ++ "url_tracking" : String).data = "url_tracker.url_tracking".data := rfl
    unfold hasTok at h3 ⊢
    refine subOcc_of_append (storeToken .url_tracker).data "url_tracking".data _ ?_
    rw [show (storeToken .url_tracker).data ++ "url_tracking".data =
        "url_tracker.url_tracking".data from rfl]
    exact h3
  constructor
  · unfold validateDatabasePrefixes
    rw [List.any_eq_true]
    refine ⟨"url_tracker.url_tracking", by simp [validTableNames], ?_⟩
    rw [show lowerStr "url_tracker.url_tracking" = "url_tracker.url_tracking" from rfl]
    exact h3
  · unfold executeSql routeSql
    simp [storeToken] at h1 h2 htok
    simp [h1, h2, htok, initQueryExecutor]

/-- C10 (witness at the concrete legal url_tracker statement). -/
theorem c10_witness :
    validateDatabasePrefixes "SELECT * FROM url_tracker.url_tracking" = true ∧
    executeSql (initQueryExecutor "rankings.db" "urls.db" "aimodels.db")
      (fun _ _ => .ok emptyDF) "SELECT * FROM url_tracker.url_tracking" =
      .error .attributeError :=
  c10_url_tracker_attribute_error "rankings.db" "urls.db" "aimodels.db"
    (fun _ _ => .ok emptyDF) "SELECT * FROM url_tracker.url_tracking"
    (by decide) (by decide) (by decide)

/-! ## More occurrence lemmas (used by the pipeline claims) -/

/-- The empty pattern occurs everywhere. -/
theorem subOcc_nil (l : List Char) : subOcc [] l = true := by
  cases l <;> simp [subOcc, List.isPrefixOf]

/-- An occurrence survives appending on the right. -/
theorem subOcc_append_left (p l t : List Char) (h : subOcc p l = true) :
    subOcc p (l ++ t) = true := by
  induction l with
  | nil =>
    simp only [subOcc, List.isEmpty_eq_true] at h
    subst h
    exact subOcc_nil t
  | cons c rest ih =>
    simp only [subOcc, Bool.or_eq_true, List.cons_append] at h ⊢
    cases h with
    | inl h =>
      refine Or.inl ?_
      rw [List.isPrefixOf_iff_prefix] at h ⊢
      exact h.trans (List.prefix_append (c :: rest) t)
    | inr h => exact Or.inr (ih h)

/-- A pattern occurs in anything ending with it. -/
theorem subOcc_append_self (p x : List Char) : subOcc p (x ++ p) = true := by
  have h := subOcc_sandwich p x []
  rwa [List.append_nil] at h

/-- String version of `subOcc_append_left`. -/
theorem hasTok_append_left (s t m : String) (h : hasTok s m = true) :
    hasTok (s ++ t) m = true := by
  unfold hasTok at h ⊢
  rw [String.data_append]
  exact subOcc_append_left m.data s.data t.data h

/-- String version of `subOcc_append_self`. -/
theorem hasTok_append_self (x m : String) : hasTok (x ++ m) m = true := by
  unfold hasTok
  rw [String.data_append]
  exact subOcc_append_self m.data x.data

/-! ## Claims about plan validation and the execute pipeline (C3, C4) -/

/-- C3 (confirmed). When the generated SQL (the `sql_query` field of the
parsed plan) contains, case-insensitively, none of the recognized
store-qualified table names, `create_execution_plan` raises the validation
`ValueError` (the spec's `PlanValidationError`) and `execute` propagates it:
the result is the validation error for EVERY store oracle `runStore`, i.e.
the stores are never consulted and no connection is opened, and the SQL is
never executed. -/
theorem c3_unqualified_sql_rejected (ex : QueryExecutor)
    (jsonLoads : String → Option (List (String × String)))
    (planResponse : String → String)
    (runStore : String → String → Except String DataFrame)
    (explainLLM : String → Except String String)
    (describe sample : DataFrame → String) (q : String)
    (h : validTableNames.all
        (fun p => !hasTok (lowerStr ((parseGeminiResponse jsonLoads (planResponse q)).sql_query))
          (lowerStr p)) = true) :
    executeQE ex jsonLoads planResponse runStore explainLLM describe sample q =
      .error .planValidation := by
  have hv : validateDatabasePrefixes
      ((parseGeminiResponse jsonLoads (planResponse q)).sql_query) = false := by
    rw [List.all_eq_true] at h
    unfold validateDatabasePrefixes
    rw [List.any_eq_false]
    intro p hp
    have hx := h p hp
    simp only [Bool.not_eq_true'] at hx
    simp [hx]
  unfold executeQE createExecutionPlan
  simp [hv]

/-- C3 (witness): a plan reply whose SQL is `SELECT * FROM keywords`. -/
theorem c3_witness :
    executeQE cexExecutor (fun _ => none) (fun _ => "sql_query:\nSELECT * FROM keywords")
      (fun _ _ => .ok emptyDF) (fun _ => .ok "done") (fun _ => "") (fun _ => "")
      "How many keywords do we track" = .error .planValidation :=
  c3_unqualified_sql_rejected cexExecutor (fun _ => none)
    (fun _ => "sql_query:\nSELECT * FROM keywords") (fun _ _ => .ok emptyDF)
    (fun _ => .ok "done") (fun _ => "") (fun _ => "")
    "How many keywords do we track" (by decide)

/-- C4 (counterexample). A plan whose SQL is `SELECT * FROM keywords`
(no store token) makes the public `execute` call raise: the validation
`ValueError` reaches the caller as an uncaught exception instead of being
surfaced as an `(explanation, rows, chart)` triple with an error text. -/
theorem c4_raises_counterexample :
    executeQE cexExecutor (fun _ => none) (fun _ => "sql_query:\nSELECT * FROM keywords")
      (fun _ _ => .ok emptyDF) (fun _ => .ok "done") (fun _ => "") (fun _ => "")
      "Which keywords rank best" = .error .planValidation := rfl

/-- C4 (amended). `execute` returns the `(explanation, rows, chart)` triple
exactly on the path where plan validation, routing and the explanation call
all succeed; an execution plan that fails validation instead makes the
`ValueError` propagate to the caller — `execute` has no handler, so plan
validation failure is NOT converted into an explanation. (Store-level
execution failures, by contrast, are absorbed inside `_execute_sql` and do
reach the triple; see the C6 theorem.) -/
theorem c4_triple_only_on_success (ex : QueryExecutor)
    (jsonLoads : String → Option (List (String × String)))
    (planResponse : String → String)
    (runStore : String → String → Except String DataFrame)
    (explainLLM : String → Except String String)
    (describe sample : DataFrame → String) (q : String) :
    (∀ plan df txt,
      createExecutionPlan jsonLoads (planResponse q) = .ok plan →
      executeSql ex runStore plan.sql_query = .ok df →
      generateExplanation explainLLM describe sample q plan df = .ok txt →
      executeQE ex jsonLoads planResponse runStore explainLLM describe sample q =
        .ok (txt, df, createVisualization df plan.visualization)) ∧
    (createExecutionPlan jsonLoads (planResponse q) = .error () →
      executeQE ex jsonLoads planResponse runStore explainLLM describe sample q =
        .error .planValidation) := by
  constructor
  · intro plan df txt hplan hsql hexp
    simp [executeQE, hplan, hsql, hexp]
  · intro hplan
    simp [executeQE, hplan]

/-- C4 (witness for the amended theorem): the successful path at a plan
reply naming `rankings.keywords`. -/
theorem c4_witness :
    executeQE cexExecutor (fun _ => none)
      (fun _ => "sql_query:\nSELECT * FROM rankings.keywords")
      (fun _ _ => .ok emptyDF) (fun _ => .ok "done") (fun _ => "") (fun _ => "")
      "Show all keywords" =
      .ok ("done", emptyDF,
        createVisualization emptyDF
          (Plan.visualization ⟨"", "SELECT * FROM rankings.keywords", "", "table"⟩)) :=
  (c4_triple_only_on_success cexExecutor (fun _ => none)
      (fun _ => "sql_query:\nSELECT * FROM rankings.keywords")
      (fun _ _ => .ok emptyDF) (fun _ => .ok "done") (fun _ => "") (fun _ => "")
      "Show all keywords").1
    ⟨"", "SELECT * FROM rankings.keywords", "", "table"⟩ emptyDF "done" rfl rfl rfl

/-! ## Claim about the response parser (C5) -/

/-- Gemini reply used to separate the parser's two strategies: it contains
braces, its brace slice is not valid JSON (so `json.loads` raises on it,
which the oracle `fun _ => none` models), yet its lines are exactly what
the `key: value` fallback understands. -/
def c5Response : String :=
  "sql_query:\nSELECT " ++ lbraceStr ++ "a" ++ rbraceStr ++ " FROM rankings.keywords"

/-- C5 (counterexample). On a reply containing braces whose brace slice
fails JSON parsing, the parser does NOT fall back to the line-by-line
heuristic: it returns the empty default plan even though the heuristic,
had it run, would have extracted a non-empty `sql_query`. -/
theorem c5_no_fallback_counterexample :
    parseGeminiResponse (fun _ => none) c5Response = defaultPlan ∧
    sliceBraces c5Response = lbraceStr ++ "a" ++ rbraceStr ∧
    (linewiseParse c5Response).sql_query =
      "SELECT " ++ lbraceStr ++ "a" ++ rbraceStr ++ " FROM rankings.keywords" :=
  ⟨rfl, rfl, rfl⟩

/-- C5 (amended). The parser first attempts JSON whenever the reply
contains both braces; if that attempt fails it returns the default plan
(whose `sql_query` is empty, failing validation downstream) WITHOUT trying
the line heuristic; the line-by-line fallback runs exactly when the reply
lacks an opening or a closing brace; and the parser, being a total
function, never raises. -/
theorem c5_parse_strategy (jsonLoads : String → Option (List (String × String)))
    (response : String) :
    (hasTok response lbraceStr = true → hasTok response rbraceStr = true →
      jsonLoads (sliceBraces response) = none →
      parseGeminiResponse jsonLoads response = defaultPlan) ∧
    ((hasTok response lbraceStr && hasTok response rbraceStr) = false →
      parseGeminiResponse jsonLoads response = linewiseParse response) ∧
    defaultPlan.sql_query = "" := by
  refine ⟨?_, ?_, rfl⟩
  · intro hl hr hj
    unfold parseGeminiResponse
    rw [if_pos (by rw [hl, hr]; rfl), hj]
  · intro hlr
    unfold parseGeminiResponse
    rw [if_neg (by rw [hlr]; exact Bool.false_ne_true)]

/-- C5 (witness): the JSON-failure branch at `c5Response` and the fallback
branch at a braceless reply. -/
theorem c5_witness :
    parseGeminiResponse (fun _ => none) c5Response = defaultPlan ∧
    parseGeminiResponse (fun _ => none) "sql_query:\nSELECT 1" =
      linewiseParse "sql_query:\nSELECT 1" :=
  ⟨(c5_parse_strategy (fun _ => none) c5Response).1 (by decide) (by decide) rfl,
   (c5_parse_strategy (fun _ => none) "sql_query:\nSELECT 1").2.1 (by decide)⟩

/-! ## Claim about the degraded empty-result path (C6) -/

/-- C6 (counterexample). A store failure does yield an empty Result Set and
no chart, but the returned explanation is whatever the model replies — here
the model replies the empty string and `execute` returns it verbatim, so
the claimed "explanation text is non-empty" does not hold on the code. -/
theorem c6_empty_explanation_counterexample :
    executeQE cexExecutor (fun _ => none)
      (fun _ => "sql_query:\nSELECT * FROM urls_analysis.urls")
      (fun _ _ => .error "no such table: urls") (fun _ => .ok "") (fun _ => "")
      (fun _ => "") "How much content do we have" = .ok ("", emptyDF, none) := rfl

/-- C6 (amended). When the plan validates and routes, and the resulting
frame has zero rows (which is what both a store failure — absorbed into
`pd.DataFrame()` — and a zero-row query produce), `execute` returns that
empty Result Set with chart `none`; the explanation returned is exactly the
model's reply to a prompt whose data sections read `No data available` —
its non-emptiness is up to the model, not enforced by the code — and an
exception in the explanation call itself would propagate (hence the
hypothesis that it returns). -/
theorem c6_empty_result_no_chart (ex : QueryExecutor)
    (jsonLoads : String → Option (List (String × String)))
    (planResponse : String → String)
    (runStore : String → String → Except String DataFrame)
    (explainLLM : String → Except String String)
    (describe sample : DataFrame → String) (q : String) (plan : Plan)
    (df : DataFrame) (txt : String)
    (hplan : createExecutionPlan jsonLoads (planResponse q) = .ok plan)
    (hsql : executeSql ex runStore plan.sql_query = .ok df)
    (hrows : df.rows = [])
    (hexp : explainLLM (explanationPrompt describe sample q plan df) = .ok txt) :
    executeQE ex jsonLoads planResponse runStore explainLLM describe sample q =
      .ok (txt, df, none) ∧
    hasTok (explanationPrompt describe sample q plan df) "No data available" = true := by
  have hEmpty : df.isEmptyDF = true := by
    simp [DataFrame.isEmptyDF, hrows]
  have hviz : createVisualization df plan.visualization = none := by
    unfold createVisualization
    rw [if_pos hEmpty]
  constructor
  · simp [executeQE, generateExplanation, hplan, hsql, hexp, hviz]
  · unfold explanationPrompt
    rw [if_pos hEmpty, if_pos hEmpty]
    exact hasTok_append_left _ _ _ (hasTok_append_left _ _ _ (hasTok_append_left _ _ _
      (hasTok_append_self _ _)))

/-- C6 (witness): a zero-row (but columned) result frame flows through to
an empty Result Set, chart `none` and the model's reply. -/
theorem c6_witness :
    executeQE cexExecutor (fun _ => none)
      (fun _ => "sql_query:\nSELECT * FROM urls_analysis.urls")
      (fun _ _ => .ok ⟨["url"], []⟩) (fun _ => .ok "No rows matched.") (fun _ => "")
      (fun _ => "") "List analyzed urls" = .ok ("No rows matched.", ⟨["url"], []⟩, none) ∧
    hasTok (explanationPrompt (fun _ => "") (fun _ => "") "List analyzed urls"
      ⟨"", "SELECT * FROM urls_analysis.urls", "", "table"⟩ ⟨["url"], []⟩)
      "No data available" = true :=
  c6_empty_result_no_chart cexExecutor (fun _ => none)
    (fun _ => "sql_query:\nSELECT * FROM urls_analysis.urls")
    (fun _ _ => .ok ⟨["url"], []⟩) (fun _ => .ok "No rows matched.") (fun _ => "")
    (fun _ => "") "List analyzed urls" ⟨"", "SELECT * FROM urls_analysis.urls", "", "table"⟩
    ⟨["url"], []⟩ "No rows matched." rfl rfl rfl rfl

/-! ## Claim about partial schema description (C8) -/

/-- C8 (confirmed). `get_schema` never aborts as a whole (it is a total
function of the introspection oracle): for any store whose introspection
fails, the inline `Error reading schema: ...` note appears in that store's
section; every store's section header is produced unconditionally; and for
any store whose introspection succeeds the rendered table blocks of that
store appear — so one unreachable store leaves the reachable stores'
sections intact. -/
theorem c8_partial_schema_description (sm : SchemaManager)
    (introspect : String → Except String (List TableInfo)) (now : String) :
    (∀ e, introspect sm.rankings_db = .error e →
      ("Error reading schema: " ++ e) ∈ getSchemaLines sm introspect now) ∧
    (∀ e, introspect sm.urls_db = .error e →
      ("Error reading schema: " ++ e) ∈ getSchemaLines sm introspect now) ∧
    (∀ e, introspect sm.aimodels_db = .error e →
      ("Error reading schema: " ++ e) ∈ getSchemaLines sm introspect now) ∧
    ("\n\nDatabase: rankings.db" ∈ getSchemaLines sm introspect now ∧
     "\n\nDatabase: urls_analysis.db" ∈ getSchemaLines sm introspect now ∧
     "\n\nDatabase: aimodels.db" ∈ getSchemaLines sm introspect now) ∧
    (∀ ts t, introspect sm.rankings_db = .ok ts → t ∈ ts →
      strStartsWith t.name "sqlite_" = false →
      ("\nTable: " ++ t.name) ∈ getSchemaLines sm introspect now) ∧
    (∀ ts t, introspect sm.urls_db = .ok ts → t ∈ ts →
      strStartsWith t.name "sqlite_" = false →
      ("\nTable: " ++ t.name) ∈ getSchemaLines sm introspect now) ∧
    (∀ ts t, introspect sm.aimodels_db = .ok ts → t ∈ ts →
      strStartsWith t.name "sqlite_" = false →
      ("\nTable: " ++ t.name) ∈ getSchemaLines sm introspect now) := by
  have tableMem : ∀ (ts : List TableInfo) (t : TableInfo), t ∈ ts →
      strStartsWith t.name "sqlite_" = false →
      ("\nTable: " ++ t.name) ∈ (ts.map tableLines).flatten := by
    intro ts t ht hname
    refine List.mem_flatten.mpr ⟨tableLines t, List.mem_map_of_mem tableLines ht, ?_⟩
    unfold tableLines
    rw [if_neg (by simp [hname])]
    simp
  refine ⟨?_, ?_, ?_, ⟨?_, ?_, ?_⟩, ?_, ?_, ?_⟩
  · intro e he
    simp [getSchemaLines, dbSection, he]
  · intro e he
    simp [getSchemaLines, dbSection, he]
  · intro e he
    simp [getSchemaLines, dbSection, he]
  · simp [getSchemaLines, dbSection]
  · simp [getSchemaLines, dbSection]
  · simp [getSchemaLines, dbSection]
  · intro ts t hok ht hname
    have := tableMem ts t ht hname
    simp [getSchemaLines, dbSection, hok, List.mem_append, this]
  · intro ts t hok ht hname
    have := tableMem ts t ht hname
    simp [getSchemaLines, dbSection, hok, List.mem_append, this]
  · intro ts t hok ht hname
    have := tableMem ts t ht hname
    simp [getSchemaLines, dbSection, hok, List.mem_append, this]

/-- Schema manager instance for the C8 witness. -/
def smCex : SchemaManager := ⟨"rankings.db", "urls.db", "aimodels.db"⟩

/-- Introspection oracle for the C8 witness: the urls store is unreachable,
the other two expose one table each. -/
def introspectCex : String → Except String (List TableInfo) :=
  fun p =>
    if p = "urls.db" then .error "unable to open database file"
    else .ok [⟨"keywords", [⟨"id", "INTEGER", false, none, true⟩], []⟩]

/-- C8 (witness): with the urls store down, its inline error note and the
rankings store's table section are both present in the description. -/
theorem c8_witness :
    ("Error reading schema: " ++ "unable to open database file") ∈
      getSchemaLines smCex introspectCex "2026-10-12 00:00:00" ∧
    ("\nTable: " ++ "keywords") ∈
      getSchemaLines smCex introspectCex "2026-10-12 00:00:00" :=
  ⟨(c8_partial_schema_description smCex introspectCex "2026-10-12 00:00:00").2.1
      "unable to open database file" rfl,
   (c8_partial_schema_description smCex introspectCex "2026-10-12 00:00:00").2.2.2.2.1
      [⟨"keywords", [⟨"id", "INTEGER", false, none, true⟩], []⟩]
      ⟨"keywords", [⟨"id", "INTEGER", false, none, true⟩], []⟩ rfl (by simp) (by decide)⟩

/-! ## Claim about the knowledge-base bulk load (C9) -/

/-- Filesystem oracle for the C9 counterexample: all three collection files
exist under `kb/`; the patterns file is malformed JSON. -/
def fsCex : String → Option String :=
  fun p =>
    if p = "kb/patterns/sql_patterns.json" then some "[(malformed"
    else if p = "kb/trends/trends.json" then some "[ trend entries ]"
    else if p = "kb/competitors/insights.json" then some "[]"
    else none

/-- `json.load` plus field access for the patterns file of the C9
counterexample: it is only ever applied to the malformed content
`[(malformed`, on which `json.load` raises. -/
def decPCex : String → Except String (List (String × String × Option String)) :=
  fun _ => .error "Expecting value: line 1 column 2 (char 1)"

/-- Trends decoder for the C9 counterexample: the trends file is valid and
holds one entry. -/
def decTCex : String → Except String (List (String × String × String × Option String)) :=
  fun _ => .ok [("AI search is growing", "blog", "2025-01-01", none)]

/-- Competitors decoder for the C9 counterexample: valid, empty list. -/
def decCCex : String → Except String (List (String × String × String × Option String)) :=
  fun _ => .ok []

/-- C9 (counterexample). A malformed patterns file does not abort only the
patterns collection: the raised exception escapes `load_initial_data`
immediately, so the trends collection — whose file exists and decodes to a
non-empty list — is left unloaded as well, contradicting the claim that
the other collections are still loaded. -/
theorem c9_abort_counterexample :
    loadInitialData fsCex decPCex decTCex decCCex "kb" ⟨[], [], []⟩ =
      (⟨[], [], []⟩, some "Expecting value: line 1 column 2 (char 1)") := rfl

/-- C9 (amended). Absent files are indeed skipped silently (all three
absent: no change, no error). But a malformed patterns file makes the
`json.load` exception escape the method at once: the state is returned
unchanged with the escaped error — the collections loaded after the
failing one in source order are NOT loaded. -/
theorem c9_skip_absent_abort_malformed (fs : String → Option String)
    (decP : String → Except String (List (String × String × Option String)))
    (decT decC : String → Except String (List (String × String × String × Option String)))
    (dir : String) (st : KBState) :
    (fs (joinPath dir "patterns/sql_patterns.json") = none →
      fs (joinPath dir "trends/trends.json") = none →
      fs (joinPath dir "competitors/insights.json") = none →
      loadInitialData fs decP decT decC dir st = (st, none)) ∧
    (∀ c e, fs (joinPath dir "patterns/sql_patterns.json") = some c →
      decP c = .error e →
      loadInitialData fs decP decT decC dir st = (st, some e)) := by
  constructor
  · intro h1 h2 h3
    simp [loadInitialData, loadRound, loadPatternsStep, loadTrendsStep,
      loadCompetitorsStep, h1, h2, h3]
  · intro c e hc he
    simp [loadInitialData, loadRound, loadPatternsStep, hc, he]

/-- C9 (witness): the silent-skip branch on an empty filesystem and the
abort branch on the malformed patterns file. -/
theorem c9_witness :
    loadInitialData (fun _ => none) (fun _ => .ok []) (fun _ => .ok [])
      (fun _ => .ok []) "kb" ⟨[], [], []⟩ = (⟨[], [], []⟩, none) ∧
    loadInitialData fsCex decPCex decTCex decCCex "kb" ⟨[], [], []⟩ =
      (⟨[], [], []⟩, some "Expecting value: line 1 column 2 (char 1)") :=
  ⟨(c9_skip_absent_abort_malformed (fun _ => none) (fun _ => .ok []) (fun _ => .ok [])
      (fun _ => .ok []) "kb" ⟨[], [], []⟩).1 rfl rfl rfl,
   (c9_skip_absent_abort_malformed fsCex decPCex decTCex decCCex "kb" ⟨[], [], []⟩).2
      "[(malformed" "Expecting value: line 1 column 2 (char 1)" rfl rfl⟩

end SeoHub
